import Mathlib

/-!
Shallow embedding of `src/main.py` (flask-simple-rest): a product-catalog
REST service with list/create endpoints, pagination, marshmallow-style
schema validation and centralized error handling.

The persistence store (the SQLite table behind `ProductRepository`) is
modelled as an ordered `List Product`; the ORM `query` over it is the list
itself, with `offset`/`limit` as `drop`/`take` (SQLite treats a negative
OFFSET as zero, which matters when the clamped page is 0). JSON values are
modelled by the inductive `Json`; `jsonify` is deterministic rendering
(`Json.render`). Handlers are pure functions from store and request to
(new store, response).
-/

/-- Database mapping for products (`class Product(db.Model)`):
`id` integer autoincrement primary key, `name` text, `inventory` integer. -/
structure Product where
  id : Nat
  name : String
  inventory : Int
deriving Repr, DecidableEq

/-- JSON values as produced by `jsonify` and marshmallow dumps. -/
inductive Json where
  | str : String → Json
  | int : Int → Json
  | arr : List Json → Json
  | obj : List (String × Json) → Json
deriving Repr

/-- Serialization of one product by `ProductCollectionSchema`
(fields `id`, `name`, `inventory`, an explicit whitelist). -/
def serializeProduct (p : Product) : Json :=
  Json.obj [("id", Json.int p.id), ("name", Json.str p.name),
            ("inventory", Json.int p.inventory)]

/-- HTTP response: a status code plus a JSON body. -/
structure Response where
  status : Nat
  body : Json
deriving Repr

/-- Page envelope returned by `paginate_result` (main.py lines 118-124). -/
structure PageEnvelope where
  page : Nat
  items_per_page : Nat
  total_pages : Nat
  items : List Json
deriving Repr

/-- The pagination arithmetic `int(ceil(query.count() / float(args.count)))`
from main.py line 114, in exact integer arithmetic (for these magnitudes the
float division is exact enough that `ceil` agrees with the rational ceiling). -/
def ceilPages (total count : Nat) : Nat :=
  (total + count - 1) / count

/-- Core of `paginate_result` (main.py lines 114-124) after the query
arguments have been parsed: `page` and `count` are the validated
positive integers. The clamp `if args.page > total_pages: args.page =
total_pages` is unconditional, so with an empty store the page becomes 0
and the offset `(page - 1) * count` is negative; SQLite evaluates a
negative OFFSET as 0, hence `Int.toNat`. -/
def paginate_result (store : List Product) (page count : Nat) : PageEnvelope :=
  let total_pages := ceilPages store.length count
  let page' := if page > total_pages then total_pages else page
  let offset : Int := ((page' : Int) - 1) * (count : Int)
  { page := page'
    items_per_page := count
    total_pages := total_pages
    items := ((store.drop offset.toNat).take count).map serializeProduct }

/-- JSON rendering of the page envelope dict built at main.py lines 118-124. -/
def envelopeToJson (e : PageEnvelope) : Json :=
  Json.obj [("page", Json.int e.page),
            ("items_per_page", Json.int e.items_per_page),
            ("total_pages", Json.int e.total_pages),
            ("items", Json.arr e.items)]

/-- A raw query-string parameter as seen by `reqparse`: absent, an
integer-parsable value, or a value on which `int()` raises `ValueError`. -/
inductive RawParam where
  | absent
  | intVal (n : Int)
  | nonInt (s : String)
deriving Repr, DecidableEq

/-- `positive_int` (main.py lines 96-100): return the integer if it is
positive, otherwise fail (raise `ValueError`). -/
def positive_int (n : Int) : Option Int :=
  if n > 0 then some n else none

/-- One `reqparse` argument with type `positive_int` and a default:
an absent parameter takes the default untouched; a present one must
parse with `int()` and pass `positive_int`. -/
def parseParam (raw : RawParam) (deflt : Nat) : Option Nat :=
  match raw with
  | .absent => some deflt
  | .intVal n =>
      match positive_int n with
      | some m => some m.toNat
      | none => none
  | .nonInt _ => none

/-- Help message registered for the `page` argument (main.py line 109). -/
def pageHelp : String := "Page number must be a positive integer."

/-- Help message registered for the `count` argument (main.py line 111). -/
def countHelp : String := "Items per page must be a positive integer."

/-- The `RequestParser(bundle_errors=True)` of `paginate_result`
(main.py lines 107-112): both arguments are checked and, with bundled
errors, every failing argument is keyed to its help message in one
400 abort. -/
def parse_args (pageArg countArg : RawParam) :
    Except (List (String × String)) (Nat × Nat) :=
  match parseParam pageArg 1, parseParam countArg 5 with
  | some p, some c => .ok (p, c)
  | none, some _ => .error [("page", pageHelp)]
  | some _, none => .error [("count", countHelp)]
  | none, none => .error [("page", pageHelp), ("count", countHelp)]

/-- GET /product (`ProductCollection.get` wrapped by `marshall_with`
with `pagination=True`): parse the pagination arguments, a failure aborts
with 400 and the flask-restful error body, field-keyed messages under a
top-level `message` key; otherwise paginate the repository query and
return the envelope with status 200. The store is only read. -/
def handleGet (store : List Product) (pageArg countArg : RawParam) :
    List Product × Response :=
  match parse_args pageArg countArg with
  | .error msgs =>
      (store, { status := 400,
                body := Json.obj
                  [("message",
                    Json.obj (msgs.map (fun kv => (kv.1, Json.str kv.2))))] })
  | .ok (p, c) =>
      (store, { status := 200,
                body := envelopeToJson (paginate_result store p c) })

/-- A JSON value for the `inventory` field of a POST body: absent, an
integer, or a value that `fields.Integer` cannot coerce. -/
inductive FieldVal where
  | absent
  | intVal (n : Int)
  | nonInt (s : String)
deriving Repr, DecidableEq

/-- POST /product request body as `ProductCreateSchema` sees it:
an optional string `name` and an `inventory` field value. -/
structure ProductBody where
  name : Option String
  inventory : FieldVal
deriving Repr, DecidableEq

/-- Marshmallow errors for `name = fields.String(required=True)`:
only absence fails (there is no non-emptiness validator). -/
def nameErrors (name : Option String) : List String :=
  match name with
  | none => ["Missing data for required field."]
  | some _ => []

/-- Marshmallow errors for `inventory = fields.Integer(required=True)`
followed by the `validate_inventory` hook (main.py lines 86-89):
absent fails as required, a non-coercible value fails the Integer field,
and a negative integer fails the custom validator. -/
def inventoryErrors (inv : FieldVal) : List String :=
  match inv with
  | .absent => ["Missing data for required field."]
  | .nonInt _ => ["Not a valid integer."]
  | .intVal n => if n < 0 then ["Invalid negative inventory."] else []

/-- Error mapping collected by one `ProductCreateSchema.load`: every
failing field is keyed to its list of messages, in field declaration
order (name before inventory). -/
def loadErrors (body : ProductBody) : List (String × List String) :=
  (if (nameErrors body.name).isEmpty then []
   else [("name", nameErrors body.name)]) ++
  (if (inventoryErrors body.inventory).isEmpty then []
   else [("inventory", inventoryErrors body.inventory)])

/-- `ProductCreateSchema(strict=True).load` (main.py lines 81-93): all
field errors are collected into one mapping (batch validation) and raised
together as one `ValidationError`; on success `make_product` builds the
unpersisted entity data. -/
def loadProduct (body : ProductBody) :
    Except (List (String × List String)) (String × Int) :=
  match body.name, body.inventory, loadErrors body with
  | some s, .intVal n, [] => .ok (s, n)
  | _, _, _ => .error (loadErrors body)

/-- JSON body produced by the `ValidationError` handler
(main.py lines 18-23): `jsonify(error.messages)`, the field-to-messages
mapping. -/
def errorsToJson (errs : List (String × List String)) : Json :=
  Json.obj (errs.map (fun kv => (kv.1, Json.arr (kv.2.map Json.str))))

/-- Next autoincrement id assigned by SQLite on insert: one more than the
largest existing id. -/
def nextId (store : List Product) : Nat :=
  (store.foldr (fun p m => max p.id m) 0) + 1

/-- POST /product (`ProductCollection.post` wrapped by `parse_with` on
`ProductCreateSchema(strict=True)` and `marshall_with` on
`ProductCollectionSchema`): a `ValidationError` from `load` propagates to
the error handler and becomes a 400 with the message mapping, nothing is
persisted; on success `repository.save` appends the entity with its
generated id and the serialized entity is returned with status 200. -/
def handlePost (store : List Product) (body : ProductBody) :
    List Product × Response :=
  match loadProduct body with
  | .error errs => (store, { status := 400, body := errorsToJson errs })
  | .ok (s, n) =>
      let p : Product := { id := nextId store, name := s, inventory := n }
      (store ++ [p], { status := 200, body := serializeProduct p })

/-- An unhandled failure reaching the process-wide error handlers:
either a marshmallow `ValidationError` with its message mapping, or any
other exception, identified by its `repr`. -/
inductive AppError where
  | validation (messages : List (String × List String))
  | other (descr : String)
deriving Repr, DecidableEq

/-- The two `app.errorhandler` functions (main.py lines 18-35). The first
component is the server-side log: `logging.exception` records the full
failure detail for the generic 500 path, nothing is logged for the 400
path. The second component is the response sent to the client. -/
def handle_error : AppError → Option String × Response
  | .validation msgs => (none, { status := 400, body := errorsToJson msgs })
  | .other d =>
      (some d,
       { status := 500,
         body := Json.obj [("message", Json.str "Oops we did it again..."),
                           ("error", Json.str d)] })

/-- The nine seeded products from `fixtures` (main.py lines 188-193):
`name = "Product i"`, `inventory = i`, ids 1..9 from autoincrement. -/
def fixtures : List Product :=
  (List.range 9).map
    (fun i => { id := i + 1,
                name := "Product " ++ toString (i + 1),
                inventory := (i : Int) + 1 })

mutual

/-- Deterministic rendering of a JSON value to its wire bytes. -/
def Json.render : Json → String
  | .str s => "\"" ++ s ++ "\""
  | .int n => toString n
  | .arr l => "[" ++ Json.renderList l ++ "]"
  | .obj l => "\x7b" ++ Json.renderObj l ++ "\x7d"

/-- Render a list of JSON values, comma separated. -/
def Json.renderList : List Json → String
  | [] => ""
  | [x] => Json.render x
  | x :: y :: xs => Json.render x ++ "," ++ Json.renderList (y :: xs)

/-- Render the members of a JSON object, comma separated. -/
def Json.renderObj : List (String × Json) → String
  | [] => ""
  | [(k, v)] => "\"" ++ k ++ "\":" ++ Json.render v
  | (k, v) :: y :: xs =>
      "\"" ++ k ++ "\":" ++ Json.render v ++ "," ++ Json.renderObj (y :: xs)

end

/-- Top-level keys of a JSON object (empty for non-objects). -/
def topKeys : Json → List String
  | .obj l => l.map Prod.fst
  | _ => []

/-! Helper lemmas (shared). -/

theorem paginate_total_pages (store : List Product) (page count : Nat) :
    (paginate_result store page count).total_pages = ceilPages store.length count := rfl

theorem paginate_page_def (store : List Product) (page count : Nat) :
    (paginate_result store page count).page =
      if page > ceilPages store.length count then ceilPages store.length count
      else page := rfl

theorem ceilPages_succ_form (n c : Nat) (hc : 1 ≤ c) (hn : 0 < n) :
    ceilPages n c = (n - 1) / c + 1 := by
  unfold ceilPages
  have h : n + c - 1 = (n - 1) + c := by omega
  rw [h, Nat.add_div_right _ (by omega)]

theorem ceilPages_le_mul (n c : Nat) (hc : 1 ≤ c) : n ≤ ceilPages n c * c := by
  rcases Nat.eq_zero_or_pos n with h | h
  · subst h; exact Nat.zero_le _
  · rw [ceilPages_succ_form n c hc h]
    have h4 : n - 1 < ((n - 1) / c + 1) * c :=
      (Nat.div_lt_iff_lt_mul (by omega)).1 (Nat.lt_succ_self _)
    omega

theorem ceilPages_pred_mul_lt (n c : Nat) (hc : 1 ≤ c) (hn : 0 < n) :
    (ceilPages n c - 1) * c < n := by
  rw [ceilPages_succ_form n c hc hn]
  simp only [Nat.add_sub_cancel]
  have := Nat.div_mul_le_self (n - 1) c
  omega

theorem ceilPages_eq_zero_iff (n c : Nat) (hc : 1 ≤ c) :
    ceilPages n c = 0 ↔ n = 0 := by
  constructor
  · intro h
    have h2 := ceilPages_le_mul n c hc
    rw [h] at h2
    simpa using h2
  · intro h
    subst h
    exact Nat.div_eq_of_lt (by omega)

theorem offset_toNat (q count : Nat) :
    (((q : Int) - 1) * (count : Int)).toNat = (q - 1) * count := by
  cases q with
  | zero =>
      have h : (((0 : Nat) : Int) - 1) * (count : Int) = -(count : Int) := by
        push_cast; ring
      rw [h]
      simp [Int.toNat_eq_zero]
  | succ k =>
      have h : (((k + 1 : Nat) : Int) - 1) * (count : Int) = ((k * count : Nat) : Int) := by
        push_cast; ring
      rw [h]
      simp only [Nat.add_sub_cancel]
      omega

theorem paginate_items_eq (store : List Product) (page count : Nat) :
    (paginate_result store page count).items =
      ((store.drop ((min page (ceilPages store.length count) - 1) * count)).take
        count).map serializeProduct := by
  simp only [paginate_result, offset_toNat]
  have hmin : (if page > ceilPages store.length count
      then ceilPages store.length count else page) =
      min page (ceilPages store.length count) := by
    rcases Nat.lt_or_ge (ceilPages store.length count) page with h | h
    · rw [if_pos h]; omega
    · rw [if_neg (by omega)]; omega
  rw [hmin]

/-! Claim theorems. -/

/-- C1 counterexample: with an empty store (total_pages = 0) and a request
for page 1, the clamp at main.py lines 115-116 fires anyway, so the
returned `page` field is 0, not the requested page 1 as the claim states. -/
theorem C1_empty_store_page_is_zero :
    (paginate_result ([] : List Product) 1 5).page = 0 ∧
    (paginate_result ([] : List Product) 1 5).page ≠ 1 := by
  constructor
  · rfl
  · intro h
    exact absurd h (by decide)

/-- C1 (amended): for every GET /product with validated positive page and
count, if the requested page exceeds total_pages and total_pages > 0 the
returned page equals total_pages (clamped silently); if total_pages = 0
the clamp still applies, so the returned page equals 0 (not the requested
page) and the items list is empty. -/
theorem C1_page_clamp (store : List Product) (page count : Nat)
    (hpage : 1 ≤ page) (hcount : 1 ≤ count) :
    (0 < (paginate_result store page count).total_pages →
      (paginate_result store page count).total_pages < page →
      (paginate_result store page count).page =
        (paginate_result store page count).total_pages) ∧
    ((paginate_result store page count).total_pages = 0 →
      (paginate_result store page count).page = 0 ∧
      (paginate_result store page count).items = []) := by
  constructor
  · intro hpos hlt
    rw [paginate_total_pages] at hpos hlt ⊢
    rw [paginate_page_def, if_pos (by omega)]
  · intro h0
    rw [paginate_total_pages] at h0
    have hn : store.length = 0 := (ceilPages_eq_zero_iff _ _ hcount).1 h0
    have hstore : store = [] := List.length_eq_zero.1 hn
    constructor
    · rw [paginate_page_def, h0, if_pos (by omega)]
    · rw [paginate_items_eq, hstore]
      simp

/-- C1 witness: concrete instance of the amended clamp behavior. -/
theorem C1_page_clamp_witness :
    0 < (paginate_result fixtures 3 5).total_pages ∧
    (paginate_result fixtures 3 5).page = (paginate_result fixtures 3 5).total_pages :=
  ⟨by decide, (C1_page_clamp fixtures 3 5 (by decide) (by decide)).1 (by decide) (by decide)⟩

/-- C2: for every GET /product with validated positive page and count, the
total_pages field is the ceiling of the store's product count divided by
count: it is the least number of pages covering all items (characterized
by the two multiplicative bounds), and it is 0 when the store is empty. -/
theorem C2_total_pages_is_ceiling (store : List Product) (page count : Nat)
    (hpage : 1 ≤ page) (hcount : 1 ≤ count) :
    store.length ≤ (paginate_result store page count).total_pages * count ∧
    (0 < store.length →
      ((paginate_result store page count).total_pages - 1) * count < store.length) ∧
    (store.length = 0 → (paginate_result store page count).total_pages = 0) := by
  rw [paginate_total_pages]
  refine ⟨ceilPages_le_mul _ _ hcount,
          fun h => ceilPages_pred_mul_lt _ _ hcount h,
          fun h => ?_⟩
  rw [h]
  exact (ceilPages_eq_zero_iff 0 count hcount).2 rfl

/-- C2 witness: nine seeded products with count 5 give total_pages 2,
which satisfies both ceiling bounds. -/
theorem C2_total_pages_is_ceiling_witness :
    fixtures.length ≤ (paginate_result fixtures 1 5).total_pages * 5 ∧
    (0 < fixtures.length →
      ((paginate_result fixtures 1 5).total_pages - 1) * 5 < fixtures.length) ∧
    (fixtures.length = 0 → (paginate_result fixtures 1 5).total_pages = 0) :=
  C2_total_pages_is_ceiling fixtures 1 5 (by decide) (by decide)

/-- C3: the items of a page are exactly the serialized slice of the
ordered store obtained by skipping (clamped page - 1) * count entities
and taking at most count; concretely on the nine seeded products with
count 5: page 1 has 5 items and total_pages 2, page 2 has 4 items, and
page 3 clamps to page 2 and returns the same 4 items. -/
theorem C3_items_are_slice (store : List Product) (page count : Nat)
    (hpage : 1 ≤ page) (hcount : 1 ≤ count) :
    (paginate_result store page count).items =
      ((store.drop ((min page (ceilPages store.length count) - 1) * count)).take
        count).map serializeProduct ∧
    (paginate_result fixtures 1 5).items.length = 5 ∧
    (paginate_result fixtures 1 5).total_pages = 2 ∧
    (paginate_result fixtures 2 5).items.length = 4 ∧
    (paginate_result fixtures 3 5).page = 2 ∧
    (paginate_result fixtures 3 5).items = (paginate_result fixtures 2 5).items :=
  ⟨paginate_items_eq store page count, rfl, rfl, rfl, rfl, rfl⟩

/-- C3 witness: the slice law instantiated on the seeded store. -/
theorem C3_items_are_slice_witness :
    (paginate_result fixtures 2 5).items =
      ((fixtures.drop ((min 2 (ceilPages fixtures.length 5) - 1) * 5)).take
        5).map serializeProduct ∧
    (paginate_result fixtures 1 5).items.length = 5 :=
  ⟨(C3_items_are_slice fixtures 2 5 (by decide) (by decide)).1,
   (C3_items_are_slice fixtures 1 5 (by decide) (by decide)).2.1⟩

/-- C10: for every GET /product with validated positive page and count,
the returned envelope has page at most total_pages (the unconditional
clamp forces this, including page = total_pages = 0 on an empty store)
and at most count items. -/
theorem C10_envelope_invariant (store : List Product) (page count : Nat)
    (hpage : 1 ≤ page) (hcount : 1 ≤ count) :
    (paginate_result store page count).page ≤
      (paginate_result store page count).total_pages ∧
    (paginate_result store page count).items.length ≤ count := by
  constructor
  · rw [paginate_page_def, paginate_total_pages]
    split
    · exact le_refl _
    · omega
  · rw [paginate_items_eq, List.length_map]
    exact List.length_take_le _ _

/-- C10 witness: the invariant instantiated on the seeded store, page 3. -/
theorem C10_envelope_invariant_witness :
    (paginate_result fixtures 3 5).page ≤ (paginate_result fixtures 3 5).total_pages ∧
    (paginate_result fixtures 3 5).items.length ≤ 5 :=
  C10_envelope_invariant fixtures 3 5 (by decide) (by decide)

/-- C4: for every POST /product whose body has a negative integer
inventory, validation raises a `ValidationError` whose error map keys
`inventory` to "Invalid negative inventory.", the handler answers 400
with that map as body, and the store is unchanged (nothing persisted). -/
theorem C4_negative_inventory_rejected (store : List Product)
    (nm : Option String) (n : Int) (hn : n < 0) :
    ∃ errs, loadProduct { name := nm, inventory := .intVal n } = .error errs ∧
      ("inventory", ["Invalid negative inventory."]) ∈ errs ∧
      handlePost store { name := nm, inventory := .intVal n } =
        (store, { status := 400, body := errorsToJson errs }) := by
  have hinv : inventoryErrors (.intVal n) = ["Invalid negative inventory."] := by
    simp [inventoryErrors, hn]
  cases nm with
  | none =>
      refine ⟨[("name", ["Missing data for required field."]),
               ("inventory", ["Invalid negative inventory."])], ?_, ?_, ?_⟩
      · simp [loadProduct, loadErrors, nameErrors, hinv]
      · simp
      · simp [handlePost, loadProduct, loadErrors, nameErrors, hinv]
  | some s =>
      refine ⟨[("inventory", ["Invalid negative inventory."])], ?_, ?_, ?_⟩
      · simp [loadProduct, loadErrors, nameErrors, hinv]
      · simp
      · simp [handlePost, loadProduct, loadErrors, nameErrors, hinv]

/-- C4 witness: a concrete negative-inventory body is rejected with the
inventory error and the seeded store is unchanged. -/
theorem C4_negative_inventory_rejected_witness :
    ∃ errs, loadProduct { name := some "Widget", inventory := .intVal (-1) } =
        .error errs ∧
      ("inventory", ["Invalid negative inventory."]) ∈ errs ∧
      handlePost fixtures { name := some "Widget", inventory := .intVal (-1) } =
        (fixtures, { status := 400, body := errorsToJson errs }) :=
  C4_negative_inventory_rejected fixtures (some "Widget") (-1) (by decide)

/-- C5 counterexample: a body whose name is present but empty passes
validation (no `ValidationError`) and is persisted: POST on an empty
store answers 200 and the store gains the product with the empty name,
refuting the claim that an empty name is rejected before persistence. -/
theorem C5_empty_name_accepted :
    loadProduct { name := some "", inventory := .intVal 1 } = .ok ("", 1) ∧
    (handlePost [] { name := some "", inventory := .intVal 1 }).2.status = 200 ∧
    (handlePost [] { name := some "", inventory := .intVal 1 }).1 =
      [{ id := 1, name := "", inventory := 1 }] :=
  ⟨rfl, rfl, rfl⟩

/-- C5 (amended): the name field is required: a body missing name is
rejected with a `ValidationError` keying `name` to the required-field
message, answered 400 with the store unchanged; but non-emptiness is not
enforced: any present name, the empty string included, passes validation
together with a non-negative integer inventory and the entity is
persisted with status 200. -/
theorem C5_name_required_but_empty_allowed (store : List Product)
    (inv : FieldVal) (s : String) (n : Int) (hn : 0 ≤ n) :
    (loadProduct { name := none, inventory := inv } =
        .error (loadErrors { name := none, inventory := inv }) ∧
     ("name", ["Missing data for required field."]) ∈
        loadErrors { name := none, inventory := inv } ∧
     handlePost store { name := none, inventory := inv } =
        (store,
         { status := 400,
           body := errorsToJson (loadErrors { name := none, inventory := inv }) })) ∧
    (loadProduct { name := some s, inventory := .intVal n } = .ok (s, n) ∧
     handlePost store { name := some s, inventory := .intVal n } =
       (store ++ [{ id := nextId store, name := s, inventory := n }],
        { status := 200,
          body := serializeProduct
            { id := nextId store, name := s, inventory := n } })) := by
  constructor
  · have h1 : loadProduct { name := none, inventory := inv } =
        .error (loadErrors { name := none, inventory := inv }) := rfl
    refine ⟨h1, ?_, ?_⟩
    · simp [loadErrors, nameErrors]
    · simp [handlePost, h1]
  · have h2 : loadProduct { name := some s, inventory := .intVal n } = .ok (s, n) := by
      have he : loadErrors { name := some s, inventory := .intVal n } = [] := by
        simp [loadErrors, nameErrors, inventoryErrors, not_lt.2 hn]
      simp [loadProduct, he]
    refine ⟨h2, ?_⟩
    simp [handlePost, h2]

/-- C5 witness: missing name is rejected; the empty name with inventory 0
is accepted and persisted. -/
theorem C5_name_required_but_empty_allowed_witness :
    (loadProduct { name := none, inventory := .intVal 2 } =
        .error (loadErrors { name := none, inventory := .intVal 2 }) ∧
     ("name", ["Missing data for required field."]) ∈
        loadErrors { name := none, inventory := .intVal 2 } ∧
     handlePost [] { name := none, inventory := .intVal 2 } =
        ([],
         { status := 400,
           body := errorsToJson (loadErrors { name := none, inventory := .intVal 2 }) })) ∧
    (loadProduct { name := some "", inventory := .intVal 0 } = .ok ("", 0) ∧
     handlePost [] { name := some "", inventory := .intVal 0 } =
       ([] ++ [{ id := nextId [], name := "", inventory := 0 }],
        { status := 200,
          body := serializeProduct { id := nextId [], name := "", inventory := 0 } })) :=
  ⟨(C5_name_required_but_empty_allowed [] (.intVal 2) "x" 0 (by decide)).1,
   (C5_name_required_but_empty_allowed [] (.intVal 7) "" 0 (by decide)).2⟩

/-- C6: validation is batched, not short-circuited: whenever both the
name field and the inventory field fail, the single `ValidationError`
raised by `load` keys both fields to their message lists simultaneously,
and the one 400 response carries both; the store is unchanged. -/
theorem C6_batch_validation (store : List Product) (body : ProductBody)
    (hname : nameErrors body.name ≠ [])
    (hinv : inventoryErrors body.inventory ≠ []) :
    loadProduct body = .error (loadErrors body) ∧
    ("name", nameErrors body.name) ∈ loadErrors body ∧
    ("inventory", inventoryErrors body.inventory) ∈ loadErrors body ∧
    handlePost store body =
      (store, { status := 400, body := errorsToJson (loadErrors body) }) := by
  have hn : body.name = none := by
    cases h : body.name with
    | none => rfl
    | some s =>
        exfalso
        apply hname
        rw [h]
        rfl
  have hie : (inventoryErrors body.inventory).isEmpty = false := by
    cases hi : inventoryErrors body.inventory with
    | nil => exact absurd hi hinv
    | cons a l => rfl
  have herrs : loadErrors body =
      [("name", nameErrors body.name), ("inventory", inventoryErrors body.inventory)] := by
    simp [loadErrors, hn, nameErrors, hie]
  have h1 : loadProduct body = .error (loadErrors body) := by
    obtain ⟨bn, bi⟩ := body
    simp only at hn
    subst hn
    rfl
  refine ⟨h1, ?_, ?_, ?_⟩
  · rw [herrs]; simp
  · rw [herrs]; simp
  · simp [handlePost, h1]

/-- C6 witness: a body missing both fields gets one 400 carrying both
the name error and the inventory error. -/
theorem C6_batch_validation_witness :
    loadProduct { name := none, inventory := .absent } =
      .error (loadErrors { name := none, inventory := .absent }) ∧
    ("name", nameErrors none) ∈ loadErrors { name := none, inventory := .absent } ∧
    ("inventory", inventoryErrors .absent) ∈
      loadErrors { name := none, inventory := .absent } ∧
    handlePost fixtures { name := none, inventory := .absent } =
      (fixtures,
       { status := 400,
         body := errorsToJson (loadErrors { name := none, inventory := .absent }) }) :=
  C6_batch_validation fixtures { name := none, inventory := .absent }
    (by decide) (by decide)

/-- C7: whenever the page or the count query parameter fails
`positive_int` (non-positive or not an integer), GET /product answers
400 with the flask-restful body keying each failing parameter to its
pagination help message under the top-level message key; the store is
untouched and the body carries no items key. -/
theorem C7_invalid_pagination_params (store : List Product)
    (pageArg countArg : RawParam)
    (hfail : parseParam pageArg 1 = none ∨ parseParam countArg 5 = none) :
    ∃ msgs, parse_args pageArg countArg = .error msgs ∧
      handleGet store pageArg countArg =
        (store,
         { status := 400,
           body := Json.obj [("message",
             Json.obj (msgs.map (fun kv => (kv.1, Json.str kv.2))))] }) ∧
      (parseParam pageArg 1 = none → ("page", pageHelp) ∈ msgs) ∧
      (parseParam countArg 5 = none → ("count", countHelp) ∈ msgs) ∧
      "items" ∉ topKeys (handleGet store pageArg countArg).2.body := by
  cases hp : parseParam pageArg 1 with
  | none =>
      cases hc : parseParam countArg 5 with
      | none =>
          refine ⟨[("page", pageHelp), ("count", countHelp)], ?_, ?_, ?_, ?_, ?_⟩
          · simp [parse_args, hp, hc]
          · simp [handleGet, parse_args, hp, hc]
          · simp
          · simp
          · simp [handleGet, parse_args, hp, hc, topKeys]
      | some c =>
          refine ⟨[("page", pageHelp)], ?_, ?_, ?_, ?_, ?_⟩
          · simp [parse_args, hp, hc]
          · simp [handleGet, parse_args, hp, hc]
          · simp
          · intro h; exact Option.noConfusion h
          · simp [handleGet, parse_args, hp, hc, topKeys]
  | some p =>
      cases hc : parseParam countArg 5 with
      | none =>
          refine ⟨[("count", countHelp)], ?_, ?_, ?_, ?_, ?_⟩
          · simp [parse_args, hp, hc]
          · simp [handleGet, parse_args, hp, hc]
          · intro h; exact Option.noConfusion h
          · simp
          · simp [handleGet, parse_args, hp, hc, topKeys]
      | some c =>
          rcases hfail with h | h
          · rw [hp] at h; exact Option.noConfusion h
          · rw [hc] at h; exact Option.noConfusion h

/-- C7 witness: page=0 and count=-1 are both rejected in one 400 with
their pagination-specific messages and no items. -/
theorem C7_invalid_pagination_params_witness :
    ∃ msgs, parse_args (.intVal 0) (.intVal (-1)) = .error msgs ∧
      handleGet fixtures (.intVal 0) (.intVal (-1)) =
        (fixtures,
         { status := 400,
           body := Json.obj [("message",
             Json.obj (msgs.map (fun kv => (kv.1, Json.str kv.2))))] }) ∧
      (parseParam (.intVal 0) 1 = none → ("page", pageHelp) ∈ msgs) ∧
      (parseParam (.intVal (-1)) 5 = none → ("count", countHelp) ∈ msgs) ∧
      "items" ∉ topKeys (handleGet fixtures (.intVal 0) (.intVal (-1))).2.body :=
  C7_invalid_pagination_params fixtures (.intVal 0) (.intVal (-1))
    (Or.inl (by decide))

/-- C8: the process-wide error translator maps a `ValidationError` and
nothing else to 400 with the field-to-messages mapping as body; every
other failure is logged server-side with its full description and
answered 500 with exactly the generic body carrying the apology message
and the failure description. -/
theorem C8_error_translation (d : String) (msgs : List (String × List String)) :
    handle_error (.other d) =
      (some d,
       { status := 500,
         body := Json.obj [("message", Json.str "Oops we did it again..."),
                           ("error", Json.str d)] }) ∧
    handle_error (.validation msgs) =
      (none, { status := 400, body := errorsToJson msgs }) :=
  ⟨rfl, rfl⟩

/-- C9: GET /product is read-only and deterministic: one request leaves
the store unchanged, and a second identical request issued right after
(no intervening writes) yields the same response, so the two rendered
JSON envelopes are byte-identical. -/
theorem C9_get_idempotent (store : List Product)
    (pageArg countArg : RawParam) :
    (handleGet store pageArg countArg).1 = store ∧
    (handleGet (handleGet store pageArg countArg).1 pageArg countArg).2 =
      (handleGet store pageArg countArg).2 ∧
    Json.render
        (handleGet (handleGet store pageArg countArg).1 pageArg countArg).2.body =
      Json.render (handleGet store pageArg countArg).2.body := by
  have h1 : (handleGet store pageArg countArg).1 = store := by
    unfold handleGet
    cases h : parse_args pageArg countArg with
    | error msgs => rfl
    | ok pc => obtain ⟨p, c⟩ := pc; rfl
  exact ⟨h1, by rw [h1], by rw [h1]⟩
